import Mathlib

/-!
Verification of the Airlo Telegram bot core (`src/main.py`): the conversation
state machine (`on_button`, `on_text`), the two rule engines
(`rule_based_verdict`, `timing_rules`), the preference store, and the access
gate.  Python strings become Lean `String`s; Python's `str` methods used by the
code (`upper`, `lower`, `title`, `replace`, `startswith`, `strip`, the `or`
defaulting idiom) are embedded explicitly; the per-user mutable session dict
becomes an explicit `Session` record threaded through transition functions;
wall-clock time becomes an explicit `now : Nat` (seconds) parameter.
-/

/-- Python's `x or default` idiom on an optional string: `None` and the empty
string are falsy and yield the default. -/
def pyOr (o : Option String) (d : String) : String :=
  match o with
  | none => d
  | some s => if s = "" then d else s

/-- ASCII lower-casing of one character (the tokens the code manipulates are
ASCII, where Python's `str.lower` agrees). -/
def asciiLower (c : Char) : Char :=
  if 'A' ≤ c ∧ c ≤ 'Z' then Char.ofNat (c.toNat + 32) else c

/-- ASCII upper-casing of one character. -/
def asciiUpper (c : Char) : Char :=
  if 'a' ≤ c ∧ c ≤ 'z' then Char.ofNat (c.toNat - 32) else c

/-- Python `str.lower` (ASCII fragment). -/
def pyLower (s : String) : String := String.mk (s.toList.map asciiLower)

/-- Python `str.upper` (ASCII fragment). -/
def pyUpper (s : String) : String := String.mk (s.toList.map asciiUpper)

/-- Worker for `pyTitle`: the boolean records whether the previous character
was alphabetic. -/
def pyTitleAux : Bool → List Char → List Char
  | _, [] => []
  | prevAlpha, c :: cs =>
    (if prevAlpha then asciiLower c else asciiUpper c) :: pyTitleAux c.isAlpha cs

/-- Python `str.title`: each character following a non-alphabetic one is
upper-cased, the rest are lower-cased. -/
def pyTitle (s : String) : String := String.mk (pyTitleAux false s.toList)

/-- Worker for `pyReplace`: left-to-right, non-overlapping replacement of
`pat` by `repl`, with fuel so the definition is structural and computes. -/
def replaceFuel (pat repl : List Char) : Nat → List Char → List Char
  | _, [] => []
  | 0, l => l
  | n + 1, c :: cs =>
    if pat ≠ [] ∧ pat.isPrefixOf (c :: cs) then
      repl ++ replaceFuel pat repl n (List.drop (pat.length - 1) cs)
    else
      c :: replaceFuel pat repl n cs

/-- Python `str.replace`. -/
def pyReplace (s pat repl : String) : String :=
  String.mk (replaceFuel pat.toList repl.toList s.toList.length s.toList)

/-- Python `str.startswith`. -/
def pyStartsWith (s pre : String) : Bool := pre.toList.isPrefixOf s.toList

/-- Python `str.strip`: drop leading and trailing whitespace. -/
def pyStrip (s : String) : String :=
  String.mk (((s.toList.dropWhile Char.isWhitespace).reverse.dropWhile
    Char.isWhitespace).reverse)

/-- The per-user preference record (`state["prefs"]` in the source), always
holding both keys; defaults `{"airport": "Any", "priority": "Balanced"}`. -/
structure Prefs where
  airport : String := "Any"
  priority : String := "Balanced"
deriving DecidableEq, Repr

/-- The per-user answers dict (`state["data"]`).  Each slot the source ever
writes or reads is one optional field; an absent key is `none` (a key stored
with Python `None`, as `data["price"] = None` does, is indistinguishable from
an absent key through `dict.get`, which is the only read the source uses). -/
structure AnswerData where
  trip_type : Option String := none
  dep_region : Option String := none
  departure : Option String := none
  destination : Option String := none
  window : Option String := none
  priority : Option String := none
  price : Option String := none
  route_type : Option String := none
  travel_window : Option String := none
  flex : Option String := none
  pref_priority : Option String := none
  pref_airport : Option String := none
deriving DecidableEq, Repr

/-- The empty answers dict. -/
def AnswerData.empty : AnswerData := {}

/-- One user's session (`USER_STATE[user_id]` after `get_state` has filled in
the default keys). -/
structure Session where
  step : Option String := none
  data : AnswerData := {}
  prefs : Prefs := {}
  access_tier : Option String := none
  access_until : Option Nat := none
deriving DecidableEq, Repr

/-- Result of the trip-check verdict engine. -/
structure VerdictPack where
  verdict : String
  reasons : List String
  options : List String
deriving DecidableEq, Repr

/-- Result of the timing engine. -/
structure TimingPack where
  booking_window : String
  why : List String
  avoid : List String
  tip : String
deriving DecidableEq, Repr

/-- An outbound render instruction handed to the chat transport: a prompt
text, the upgrade prompt, or one of the two result screens (carrying the
fields the result text is built from). -/
inductive Render where
  | msg (text : String)
  | upgradePrompt
  | checkResult (depShown destShown : String) (pack : VerdictPack)
  | timingResult (pack : TimingPack)
deriving DecidableEq, Repr

/-- `grant_access`: set the tier and an absolute expiry `now + days` (in
seconds: a day is 86400 seconds, as in `timedelta(days=days)`). -/
def grant_access (now : Nat) (s : Session) (tier : String) (days : Nat) : Session :=
  { s with access_tier := some tier, access_until := some (now + days * 86400) }

/-- `has_access`: true iff an expiry is set and `now` is strictly before it. -/
def has_access (now : Nat) (s : Session) : Bool :=
  match s.access_until with
  | none => false
  | some u => decide (now < u)

/-- `access_status_text`: no-access text if ungranted, expired text when the
floor of the remaining whole hours is `≤ 0`, otherwise the remaining-hours
text.  `Int.fdiv` is Python's floor division `//`. -/
def access_status_text (now : Nat) (s : Session) : String :=
  let tier := s.access_tier.getD "none"
  match s.access_until with
  | none => "🔒 No access active.\n\nStart Airlo Monthly to continue using the bot."
  | some u =>
    let hours : Int := Int.fdiv ((u : Int) - (now : Int)) 3600
    if hours ≤ 0 then "🔒 Access expired.\n\nRestart Airlo Monthly to continue."
    else "✅ Access: " ++ tier ++ "\n⏳ Expires in ~" ++ toString hours ++ " hours"

/-- `reset_check`: enter the trip-check flow with empty answers. -/
def reset_check (s : Session) : Session :=
  { s with step := some "CHECK_ENTRY", data := {} }

/-- `reset_when`: enter the timing flow with empty answers. -/
def reset_when (s : Session) : Session :=
  { s with step := some "WHEN_ENTRY", data := {} }

/-- `timing_rules`: baseline result, then the route-type, travel-window, flex
and preference overlays, each written field by field exactly as the source
branch mutates that field. -/
def timing_rules (when_data : AnswerData) : TimingPack :=
  let route_type := when_data.route_type
  let travel_window := when_data.travel_window
  let flex := when_data.flex
  let pref_priority := pyLower (pyOr when_data.pref_priority "Balanced")
  let booking_window := "3–6 weeks before departure"
  let why := ["Fares often stabilise in this window once airlines have clearer demand signals.",
    "Mid-week inventory typically prices cleaner than Fri–Sun peak demand.",
    "Booking too early can lock in inflated early-season pricing."]
  let avoid := ["Booking on weekends", "Locking in too early without fixed dates"]
  let tip := "If you can, aim for Tue–Wed departures and compare nearby airports."
  -- Route type tweaks
  let booking_window :=
    if route_type = some "LONG" then "6–10 weeks before departure"
    else if route_type = some "DOM" then "2–4 weeks before departure"
    else booking_window
  let why :=
    if route_type = some "LONG" then
      why.set 0 "Long-haul fares often reward earlier planning due to limited cabin inventory."
    else if route_type = some "DOM" then
      why.set 0 "Domestic routes can price best closer in, unless it’s a peak travel week."
    else why
  -- Travel window tweaks
  let booking_window :=
    if travel_window = some "PEAK" then "8–12 weeks before departure" else booking_window
  let why :=
    if travel_window = some "PEAK" then
      why.set 1 "Peak season load factors climb early, pushing prices up sooner."
    else why
  let avoid :=
    if travel_window = some "PEAK" then ["Last-minute booking", "Fri–Sun peak travel days"]
    else if travel_window = some "NM" then
      ["Waiting too long if dates are fixed", "Fri–Sun departures"]
    else avoid
  -- Flex tweaks
  let tip :=
    if flex = some "FX" then
      "With fixed dates, book within the recommended window to reduce pricing risk."
    else if flex = some "VF" then
      "With high flexibility, wait for dips and avoid peak days to improve value."
    else tip
  -- Preference-based tip tweaks
  let tip :=
    if pref_priority = "cheapest" then
      "Cheapest-first: avoid Fri–Sun, target Tue–Wed, and compare alternate airports."
    else if pref_priority = "fastest" then
      "Fastest-first: book earlier in the window to secure direct routings and short connections."
    else if pref_priority = "comfort" then
      "Comfort-first: book earlier to secure better departure times, seat options, and fewer connections."
    else tip
  { booking_window := booking_window, why := why.take 3, avoid := avoid.take 2, tip := tip }

/-- Base case of `rule_based_verdict`: the five-way branch on `window` that
initialises the verdict, reasons and options. -/
def verdict_base (window : Option String) (priority_raw : String) : VerdictPack :=
  if window = some "0_2" then
    { verdict := if priority_raw = "FAST" ∨ priority_raw = "COMF" then "BOOK" else "WAIT",
      reasons := ["Close to departure: fares can swing quickly as inventory tightens.",
        "Peak-day demand (Fri/Sun) can add a premium even on short routes."],
      options := ["If possible, shift to Tue–Wed or Saturday for cleaner pricing."] }
  else if window = some "2_6" then
    { verdict := "BOOK",
      reasons := ["This is commonly the best optimisation window for many short/medium routes.",
        "Airlines have set pricing bands but demand hasn’t fully peaked yet."],
      options := ["Compare airport pairs (e.g., LHR vs LGW) for better value."] }
  else if window = some "1_3" then
    { verdict := "WAIT",
      reasons := ["Often early for best pricing — good for planning, not always for buying.",
        "Watch for dips around 3–6 weeks pre-departure on many routes."],
      options := ["If it’s peak season or fixed dates, consider booking earlier."] }
  else if window = some "3P" then
    { verdict := "WAIT",
      reasons := ["Usually too early to lock the best price unless it’s peak dates.",
        "Better value often appears closer to the optimal window."],
      options := ["Set a reminder and re-check as you approach 8–12 / 3–6 weeks."] }
  else
    { verdict := "WAIT",
      reasons := ["Without dates, safest move is to benchmark typical booking windows."],
      options := ["Run /when for a route-based booking window."] }

/-- Preference-aware tweaks of `rule_based_verdict`: the matching preference
priority prepends two option strings (`insert(0, _)` then `insert(1, _)`) and
appends one reason string. -/
def verdict_overlay (pref_priority pref_airport : String) (base : VerdictPack) : VerdictPack :=
  if pref_priority = "cheapest" then
    { verdict := base.verdict,
      reasons := base.reasons ++
        ["Cheapest-first trips benefit most from flexibility and airport pair comparisons."],
      options := "Cheapest-first: aim Tue–Wed and avoid Fri–Sun if possible." ::
        ("Default airport setting: " ++ pref_airport ++ " (adjust in Preferences).") ::
        base.options }
  else if pref_priority = "fastest" then
    { verdict := base.verdict,
      reasons := base.reasons ++
        ["Fastest-first trips often need earlier booking to lock direct seats."],
      options := "Fastest-first: prioritise direct routings and minimal connections." ::
        "Book earlier in the window to secure the best direct inventory." ::
        base.options }
  else if pref_priority = "comfort" then
    { verdict := base.verdict,
      reasons := base.reasons ++
        ["Comfort-first trips benefit from better timing and route quality."],
      options := "Comfort-first: avoid extreme departure times and multiple connections." ::
        "Book earlier to secure better cabin/seat availability." ::
        base.options }
  else base

/-- `rule_based_verdict`: base five-way branch on `window`, then the
preference overlay, then both lists truncated to three entries. -/
def rule_based_verdict (data : AnswerData) : VerdictPack :=
  let pack := verdict_overlay (pyLower (pyOr data.pref_priority "Balanced"))
    (pyOr data.pref_airport "Any")
    (verdict_base data.window (pyUpper (pyOr data.priority "BAL")))
  { verdict := pack.verdict, reasons := pack.reasons.take 3, options := pack.options.take 3 }

/-- The state mutations `send_result` performs on the answers dict before
rendering: inject the preferences, then default an unspecified departure to
the preferred airport when that preference is not itself `Any`/`ANY`. -/
def send_result_data (d : AnswerData) (prefs : Prefs) : AnswerData :=
  let d := { d with pref_priority := some prefs.priority, pref_airport := some prefs.airport }
  if d.departure = none ∨ d.departure = some "" ∨ d.departure = some "ANY" ∨
      d.departure = some "Any" ∨ d.departure = some "ANY LONDON" ∨ d.departure = some "LON" then
    if ¬(prefs.airport = "Any" ∨ prefs.airport = "ANY") then
      { d with departure := some prefs.airport }
    else d
  else d

/-- `send_result`: mutate the answers, run the verdict engine, and render the
result screen (`data.get("departure", "—")` and `data.get("destination", "—")`
are the shown route endpoints). -/
def send_result (d : AnswerData) (prefs : Prefs) : AnswerData × Render :=
  let d' := send_result_data d prefs
  (d', Render.checkResult (d'.departure.getD "—") (d'.destination.getD "—")
    (rule_based_verdict d'))

/-- `/check` command: upgrade prompt if no access, else `reset_check` and the
intro prompt. -/
def check_cmd (now : Nat) (s : Session) : Session × List Render :=
  if !(has_access now s) then (s, [Render.upgradePrompt])
  else (reset_check s,
    [Render.msg "✅ Trip Check\n\nQuick questions — then you’ll get a fare/timing sanity check."])

/-- `/when` command: upgrade prompt if no access, else `reset_when` and the
intro prompt. -/
def when_cmd (now : Nat) (s : Session) : Session × List Render :=
  if !(has_access now s) then (s, [Render.upgradePrompt])
  else (reset_when s,
    [Render.msg "⏱ Best Time to Book\n\nAnswer a few questions and Airlo will suggest the optimal booking window."])

/-- The callback-query router `on_button`: a chain of token tests (exact
matches and `startswith` prefix tests) in source order, each branch mutating
the session and producing renders.  `now` is the wall-clock second used by
the access checks. -/
def on_button (now : Nat) (s : Session) (cd : String) : Session × List Render :=
  if cd = "SHOW_STATUS" then
    if !(has_access now s) then
      (s, [Render.msg (access_status_text now s), Render.upgradePrompt])
    else (s, [Render.msg (access_status_text now s)])
  else if cd = "START_MENU" then
    (s, [Render.msg "✈️ Welcome to Airlo\n\nPick what you need:"])
  else if cd = "SET_AIRPORT" then
    (s, [Render.msg "Select your default departure airport:"])
  else if pyStartsWith cd "SET_AP_" then
    let ap := pyReplace cd "SET_AP_" ""
    ({ s with prefs := { s.prefs with airport := ap } },
     [Render.msg ("✅ Departure airport set to " ++ ap)])
  else if cd = "SET_PRIORITY" then
    (s, [Render.msg "Select your default travel priority:"])
  else if pyStartsWith cd "SET_PR_" then
    let pr := pyTitle (pyReplace cd "SET_PR_" "")
    ({ s with prefs := { s.prefs with priority := pr } },
     [Render.msg ("✅ Travel priority set to " ++ pr)])
  else if cd = "SET_RESET" then
    ({ s with prefs := { airport := "Any", priority := "Balanced" } },
     [Render.msg "♻️ Preferences reset to default."])
  else if cd = "SETTINGS_BACK" then
    (s, [Render.msg ("⚙️ Preferences\n\nDeparture airport: " ++ s.prefs.airport
      ++ "\nTravel priority: " ++ s.prefs.priority ++ "\n\nUpdate your preferences below.")])
  else if cd = "WHEN_INFO" then
    (s, [Render.msg "Airlo suggests the best booking window based on route type, seasonality, and flexibility."])
  else if cd = "WHEN_START" then
    if !(has_access now s) then
      (s, [Render.msg "🔒 Airlo access required.", Render.upgradePrompt])
    else
      ({ s with step := some "WHEN_ROUTE_TYPE", data := {} },
       [Render.msg "What kind of route is this?"])
  else if pyStartsWith cd "WHEN_RT_" then
    ({ s with
        data := { s.data with route_type := some (pyReplace cd "WHEN_RT_" "") },
        step := some "WHEN_TRAVEL_WINDOW" },
     [Render.msg "When are you travelling?"])
  else if pyStartsWith cd "WHEN_TW_" then
    ({ s with
        data := { s.data with travel_window := some (pyReplace cd "WHEN_TW_" "") },
        step := some "WHEN_FLEX" },
     [Render.msg "How flexible are you?"])
  else if pyStartsWith cd "WHEN_FX_" then
    let d := { s.data with
      flex := some (pyReplace cd "WHEN_FX_" ""),
      pref_priority := some s.prefs.priority }
    ({ s with data := d, step := some "WHEN_DONE" }, [Render.timingResult (timing_rules d)])
  else if cd = "CHECK_INFO" then
    (s, [Render.msg "Airlo reviews your route, timing, and options to help you avoid overpriced or inefficient bookings."])
  else if cd = "CHECK_START" then
    if !(has_access now s) then
      (s, [Render.msg "🔒 Airlo access required.", Render.upgradePrompt])
    else
      ({ s with step := some "TRIP_TYPE", data := {} },
       [Render.msg "What type of trip is this?"])
  else if cd = "TRIP_RETURN" ∨ cd = "TRIP_ONEWAY" then
    ({ s with
        data := { s.data with
          trip_type := some (if cd = "TRIP_RETURN" then "Return" else "One-way") },
        step := some "DEP_REGION" },
     [Render.msg "Where are you departing from?"])
  else if pyStartsWith cd "DEP_" then
    let d := { s.data with dep_region := some (pyReplace cd "DEP_" "") }
    if cd = "DEP_UK" then
      ({ s with data := d, step := some "DEP_AREA" }, [Render.msg "Select your departure area:"])
    else
      ({ s with data := d, step := some "DEP_TYPED" },
       [Render.msg "Type your departure city/airport (e.g., Paris CDG):"])
  else if cd = "DEPAREA_LONDON" then
    ({ s with step := some "DEP_LONDON_AIRPORT" }, [Render.msg "Which London airport?"])
  else if pyStartsWith cd "DEPAPT_" then
    let val := pyReplace cd "DEPAPT_" ""
    ({ s with
        data := { s.data with
          departure := some (if val = "ANY" then "ANY LONDON" else val) },
        step := some "DEST_REGION" },
     [Render.msg "Where are you travelling to?"])
  else if pyStartsWith cd "DST_" then
    if cd = "DST_EU" then
      ({ s with step := some "DEST_PICK" }, [Render.msg "Choose a destination (or type):"])
    else
      ({ s with step := some "DEST_TYPED" }, [Render.msg "Type your destination city/airport:"])
  else if cd = "DEST_TYPE" then
    ({ s with step := some "DEST_TYPED" }, [Render.msg "Type your destination city/airport:"])
  else if pyStartsWith cd "DEST_" ∧ ¬(cd = "DEST_TYPE") then
    ({ s with
        data := { s.data with destination := some (pyReplace cd "DEST_" "") },
        step := some "TRAVEL_WINDOW" },
     [Render.msg "When are you travelling?"])
  else if pyStartsWith cd "WIN_" then
    ({ s with
        data := { s.data with window := some (pyReplace cd "WIN_" "") },
        step := some "PRIORITY" },
     [Render.msg "What matters most?"])
  else if pyStartsWith cd "PR_" then
    ({ s with
        data := { s.data with priority := some (pyReplace cd "PR_" "") },
        step := some "ASK_PRICE" },
     [Render.msg "Do you have a price you’re considering?"])
  else if cd = "PRICE_NO" then
    let d0 := { s.data with price := none }
    let res := send_result d0 s.prefs
    ({ s with data := res.1, step := some "DONE" }, [res.2])
  else if cd = "PRICE_YES" then
    ({ s with step := some "PRICE_TYPED" }, [Render.msg "Type the total price (e.g. £340):"])
  else
    (s, [Render.msg "Use /start to begin."])

/-- The exact set of inbound choice tokens `on_button` dispatches on: the
disjunction of every branch condition, in source order.  A token outside this
set falls through to the final fallback. -/
def recognized_token (cd : String) : Prop :=
  cd = "SHOW_STATUS" ∨ cd = "START_MENU" ∨ cd = "SET_AIRPORT" ∨
  pyStartsWith cd "SET_AP_" = true ∨ cd = "SET_PRIORITY" ∨ pyStartsWith cd "SET_PR_" = true ∨
  cd = "SET_RESET" ∨ cd = "SETTINGS_BACK" ∨ cd = "WHEN_INFO" ∨ cd = "WHEN_START" ∨
  pyStartsWith cd "WHEN_RT_" = true ∨ pyStartsWith cd "WHEN_TW_" = true ∨
  pyStartsWith cd "WHEN_FX_" = true ∨
  cd = "CHECK_INFO" ∨ cd = "CHECK_START" ∨ cd = "TRIP_RETURN" ∨ cd = "TRIP_ONEWAY" ∨
  pyStartsWith cd "DEP_" = true ∨ cd = "DEPAREA_LONDON" ∨ pyStartsWith cd "DEPAPT_" = true ∨
  pyStartsWith cd "DST_" = true ∨ cd = "DEST_TYPE" ∨ pyStartsWith cd "DEST_" = true ∨
  pyStartsWith cd "WIN_" = true ∨ pyStartsWith cd "PR_" = true ∨ cd = "PRICE_NO" ∨
  cd = "PRICE_YES"

/-- The free-text handler `on_text`: typed input is consumed only in the three
steps that expect it, otherwise the generic fallback reply is sent. -/
def on_text (s : Session) (text : String) : Session × List Render :=
  let msg := pyStrip text
  if s.step = some "DEP_TYPED" then
    ({ s with
        data := { s.data with departure := some msg }, step := some "DEST_REGION" },
     [Render.msg "Where are you travelling to?"])
  else if s.step = some "DEST_TYPED" then
    ({ s with
        data := { s.data with destination := some msg }, step := some "TRAVEL_WINDOW" },
     [Render.msg "When are you travelling?"])
  else if s.step = some "PRICE_TYPED" then
    let d0 := { s.data with price := some msg }
    let res := send_result d0 s.prefs
    ({ s with data := res.1, step := some "DONE" },
     [Render.msg "Thanks — generating your Airlo Trip Check ✅", res.2])
  else
    (s, [Render.msg "Use /start to begin. Or /help for commands."])

/-! ## Helper lemmas -/

/-- The preference overlay never changes the verdict. -/
theorem overlay_verdict_eq (pp pa : String) (b : VerdictPack) :
    (verdict_overlay pp pa b).verdict = b.verdict := by
  unfold verdict_overlay
  split_ifs <;> rfl

/-- A preference priority matching none of the three trigger words leaves the
base verdict pack untouched. -/
theorem overlay_id (pp pa : String) (b : VerdictPack)
    (h1 : pp ≠ "cheapest") (h2 : pp ≠ "fastest") (h3 : pp ≠ "comfort") :
    verdict_overlay pp pa b = b := by
  unfold verdict_overlay
  split_ifs <;> first | rfl | contradiction

/-- The verdict field of the engine output is the base verdict. -/
theorem rule_based_verdict_verdict (d : AnswerData) :
    (rule_based_verdict d).verdict =
      (verdict_base d.window (pyUpper (pyOr d.priority "BAL"))).verdict := by
  simp only [rule_based_verdict, overlay_verdict_eq]

/-- Both output lists of the verdict engine are truncated to three entries. -/
theorem rule_based_verdict_lengths (d : AnswerData) :
    (rule_based_verdict d).reasons.length ≤ 3 ∧ (rule_based_verdict d).options.length ≤ 3 := by
  simp only [rule_based_verdict]
  constructor <;> simp [List.length_take]

/-- The base verdict is always one of the two strings. -/
theorem verdict_base_verdict_cases (w : Option String) (pr : String) :
    (verdict_base w pr).verdict = "BOOK" ∨ (verdict_base w pr).verdict = "WAIT" := by
  unfold verdict_base
  split_ifs <;> simp

/-- Dispatching `CHECK_START` only tests access, then either renders the lock
message plus upgrade prompt (state unchanged) or resets to the trip-check
entry question. -/
theorem on_button_check_start_eq (now : Nat) (s : Session) :
    on_button now s "CHECK_START" =
      if !(has_access now s) then
        (s, [Render.msg "🔒 Airlo access required.", Render.upgradePrompt])
      else
        ({ s with step := some "TRIP_TYPE", data := {} },
         [Render.msg "What type of trip is this?"]) := rfl

/-- Dispatching `WHEN_START`, symmetrically. -/
theorem on_button_when_start_eq (now : Nat) (s : Session) :
    on_button now s "WHEN_START" =
      if !(has_access now s) then
        (s, [Render.msg "🔒 Airlo access required.", Render.upgradePrompt])
      else
        ({ s with step := some "WHEN_ROUTE_TYPE", data := {} },
         [Render.msg "What kind of route is this?"]) := rfl

/-- A stored preference priority whose lower-casing is none of the three
trigger words produces exactly the output the engine gives for `Balanced`. -/
theorem verdict_no_overlay (d : AnswerData) (x : String)
    (h1 : pyLower (pyOr (some x) "Balanced") ≠ "cheapest")
    (h2 : pyLower (pyOr (some x) "Balanced") ≠ "fastest")
    (h3 : pyLower (pyOr (some x) "Balanced") ≠ "comfort") :
    rule_based_verdict { d with pref_priority := some x } =
      rule_based_verdict { d with pref_priority := some "Balanced" } := by
  simp only [rule_based_verdict]
  rw [overlay_id _ _ _ h1 h2 h3,
    overlay_id _ _ _ (by decide) (by decide) (by decide)]

/-- Same non-trigger condition for the timing engine's priority tip overlay. -/
theorem timing_no_overlay (d : AnswerData) (x : String)
    (h1 : pyLower (pyOr (some x) "Balanced") ≠ "cheapest")
    (h2 : pyLower (pyOr (some x) "Balanced") ≠ "fastest")
    (h3 : pyLower (pyOr (some x) "Balanced") ≠ "comfort") :
    (timing_rules { d with pref_priority := some x }).tip =
      (timing_rules { d with pref_priority := some "Balanced" }).tip := by
  simp only [timing_rules]
  rw [if_neg h1, if_neg h2, if_neg h3,
    if_neg (show ¬pyLower (pyOr (some "Balanced") "Balanced") = "cheapest" by decide),
    if_neg (show ¬pyLower (pyOr (some "Balanced") "Balanced") = "fastest" by decide),
    if_neg (show ¬pyLower (pyOr (some "Balanced") "Balanced") = "comfort" by decide)]

/-! ## Claims -/

/-- **C1**: over all five travel-window tokens crossed with all four answered
priority tokens (and any stored preference values), `rule_based_verdict`
returns a verdict in BOOK/WAIT matching the table of spec section 4.4 — BOOK
for `0_2` iff the answered priority is FAST or COMF, BOOK for `2_6`
unconditionally, WAIT for `1_3`, `3P` and `NS` — with at most 3 reasons and
at most 3 options. -/
theorem C1_verdict_table (w p : String) (pp pa : Option String) (r : VerdictPack)
    (hw : w ∈ ["0_2", "2_6", "1_3", "3P", "NS"])
    (hp : p ∈ ["CHEAP", "BAL", "FAST", "COMF"])
    (hr : r = rule_based_verdict
      { window := some w, priority := some p, pref_priority := pp, pref_airport := pa }) :
    (r.verdict = "BOOK" ∨ r.verdict = "WAIT") ∧
    (r.verdict = "BOOK" ↔ w = "2_6" ∨ (w = "0_2" ∧ (p = "FAST" ∨ p = "COMF"))) ∧
    r.reasons.length ≤ 3 ∧ r.options.length ≤ 3 := by
  subst hr
  refine ⟨?_, ?_, (rule_based_verdict_lengths _).1, (rule_based_verdict_lengths _).2⟩
  · rw [rule_based_verdict_verdict]
    exact verdict_base_verdict_cases _ _
  · rw [rule_based_verdict_verdict,
      show ({ window := some w, priority := some p, pref_priority := pp, pref_airport := pa } : AnswerData).window = some w from rfl,
      show ({ window := some w, priority := some p, pref_priority := pp, pref_airport := pa } : AnswerData).priority = some p from rfl]
    fin_cases hw <;> fin_cases hp <;> decide

/-- Claim C1 witness at window `0_2`, priority `FAST`, default preferences. -/
theorem C1_verdict_table_witness :
    ("0_2" ∈ ["0_2", "2_6", "1_3", "3P", "NS"]) ∧
    ("FAST" ∈ ["CHEAP", "BAL", "FAST", "COMF"]) ∧
    (((rule_based_verdict { window := some "0_2", priority := some "FAST", pref_priority := some "Balanced", pref_airport := some "Any" }).verdict = "BOOK" ∨
      (rule_based_verdict { window := some "0_2", priority := some "FAST", pref_priority := some "Balanced", pref_airport := some "Any" }).verdict = "WAIT") ∧
     ((rule_based_verdict { window := some "0_2", priority := some "FAST", pref_priority := some "Balanced", pref_airport := some "Any" }).verdict = "BOOK" ↔
       "0_2" = "2_6" ∨ ("0_2" = "0_2" ∧ ("FAST" = "FAST" ∨ "FAST" = "COMF"))) ∧
     (rule_based_verdict { window := some "0_2", priority := some "FAST", pref_priority := some "Balanced", pref_airport := some "Any" }).reasons.length ≤ 3 ∧
     (rule_based_verdict { window := some "0_2", priority := some "FAST", pref_priority := some "Balanced", pref_airport := some "Any" }).options.length ≤ 3) :=
  ⟨by decide, by decide,
   C1_verdict_table "0_2" "FAST" (some "Balanced") (some "Any") _ (by decide) (by decide) rfl⟩

/-- The answers of the C2 scenario: window `2_6`, answered priority `CHEAP`. -/
def c2answers : AnswerData := { window := some "2_6", priority := some "CHEAP" }

/-- Claim C2 counterexample: with default preferences (airport `Any`,
priority `Balanced`) the verdict is Book but the first option is **not** the
cheapest-first override — the overlay keys on the stored preference priority,
which is `Balanced`, not on the answered priority `CHEAP`. -/
theorem C2_counterexample :
    (rule_based_verdict
      (send_result_data c2answers { airport := "Any", priority := "Balanced" })).verdict
        = "BOOK" ∧
    (rule_based_verdict
      (send_result_data c2answers { airport := "Any", priority := "Balanced" })).options.head?
        ≠ some "Cheapest-first: aim Tue–Wed and avoid Fri–Sun if possible." := by
  decide

/-- **C2** (amended): for answers `{window: 2_6, priority: CHEAP}` with
default preferences the verdict is Book, the reasons and options stay the
base lists (first option is the airport-pairs base string) with at most 3
entries, because the overlay keys on the stored preference priority
(`Balanced` by default); only when the stored preference priority is
`Cheapest` is the cheapest-first override prepended and first. -/
theorem C2_base_options_scenario :
    (rule_based_verdict
      (send_result_data c2answers { airport := "Any", priority := "Balanced" })).verdict
        = "BOOK" ∧
    (rule_based_verdict
      (send_result_data c2answers { airport := "Any", priority := "Balanced" })).options.head?
        = some "Compare airport pairs (e.g., LHR vs LGW) for better value." ∧
    (rule_based_verdict
      (send_result_data c2answers { airport := "Any", priority := "Balanced" })).reasons.length
        ≤ 3 ∧
    (rule_based_verdict
      (send_result_data c2answers { airport := "Any", priority := "Cheapest" })).verdict
        = "BOOK" ∧
    (rule_based_verdict
      (send_result_data c2answers { airport := "Any", priority := "Cheapest" })).options.head?
        = some "Cheapest-first: aim Tue–Wed and avoid Fri–Sun if possible." := by
  decide

/-- The answers of the C4 scenario: long-haul route, peak travel window,
fixed dates. -/
def c4answers : AnswerData :=
  { route_type := some "LONG", travel_window := some "PEAK", flex := some "FX" }

/-- **C4**: for timing answers LONG/PEAK/FX the booking window is the peak
overlay value `8–12 weeks before departure` (overwriting long-haul's
`6–10 weeks`), whatever the priority hint; the tip is the fixed-dates flex
tip when the hint is `Balanced` (or absent), and each non-Balanced hint value
overwrites the tip with its own priority tip. -/
theorem C4_timing_scenario :
    (timing_rules c4answers).booking_window = "8–12 weeks before departure" ∧
    (timing_rules c4answers).tip =
      "With fixed dates, book within the recommended window to reduce pricing risk." ∧
    (timing_rules { c4answers with pref_priority := some "Balanced" }).booking_window =
      "8–12 weeks before departure" ∧
    (timing_rules { c4answers with pref_priority := some "Balanced" }).tip =
      "With fixed dates, book within the recommended window to reduce pricing risk." ∧
    (timing_rules { c4answers with pref_priority := some "Cheapest" }).booking_window =
      "8–12 weeks before departure" ∧
    (timing_rules { c4answers with pref_priority := some "Cheapest" }).tip =
      "Cheapest-first: avoid Fri–Sun, target Tue–Wed, and compare alternate airports." ∧
    (timing_rules { c4answers with pref_priority := some "Fastest" }).booking_window =
      "8–12 weeks before departure" ∧
    (timing_rules { c4answers with pref_priority := some "Fastest" }).tip =
      "Fastest-first: book earlier in the window to secure direct routings and short connections." ∧
    (timing_rules { c4answers with pref_priority := some "Comfort" }).booking_window =
      "8–12 weeks before departure" ∧
    (timing_rules { c4answers with pref_priority := some "Comfort" }).tip =
      "Comfort-first: book earlier to secure better departure times, seat options, and fewer connections." := by
  decide

/-- A session sitting at the TRIP_TYPE step with an active access grant. -/
def c3session : Session :=
  { step := some "TRIP_TYPE", data := {}, prefs := {}, access_tier := some "trial",
    access_until := some 604800 }

/-- Claim C3 counterexample: a travel-window token arriving while the current
step is TRIP_TYPE is consumed anyway — the router dispatches on the token
prefix alone, never consulting the active step — so the answers change, the
step jumps to PRIORITY, and no start-over fallback is rendered. -/
theorem C3_counterexample :
    (on_button 0 c3session "WIN_2_6").1.data ≠ c3session.data ∧
    (on_button 0 c3session "WIN_2_6").1.data.window = some "2_6" ∧
    (on_button 0 c3session "WIN_2_6").1.step = some "PRIORITY" ∧
    (on_button 0 c3session "WIN_2_6").2 ≠ [Render.msg "Use /start to begin."] := by
  decide

/-- **C3** (amended): only a choice token matching none of the recognized
tokens/prefixes leaves the session (answers and current step) unchanged and
renders the generic start-over fallback; a recognized token is dispatched on
its prefix regardless of the currently active step, so out-of-sequence
recognized tokens are consumed into answer slots. -/
theorem C3_unrecognized_fallback (now : Nat) (s : Session) (cd : String)
    (h : ¬ recognized_token cd) :
    on_button now s cd = (s, [Render.msg "Use /start to begin."]) := by
  unfold recognized_token at h
  push_neg at h
  obtain ⟨h1, h2, h3, h4, h5, h6, h7, h8, h9, h10, h11, h12, h13, h14, h15, h16, h17,
    h18, h19, h20, h21, h22, h23, h24, h25, h26, h27⟩ := h
  simp [on_button, h1, h2, h3, h4, h5, h6, h7, h8, h9, h10, h11, h12, h13, h14, h15,
    h16, h17, h18, h19, h20, h21, h22, h23, h24, h25, h26, h27]

instance recognized_token_decidable (cd : String) : Decidable (recognized_token cd) := by
  unfold recognized_token
  infer_instance

/-- Claim C3 witness: a junk token leaves the session untouched and renders
the fallback. -/
theorem C3_unrecognized_fallback_witness :
    (¬ recognized_token "WIN2_6X") ∧
    on_button 0 c3session "WIN2_6X" = (c3session, [Render.msg "Use /start to begin."]) :=
  ⟨by decide, C3_unrecognized_fallback 0 c3session "WIN2_6X" (by decide)⟩

/-- The departure values `send_result` treats as unspecified (the Python
tuple `(None, "", "ANY", "Any", "ANY LONDON", "LON")`). -/
def sentinel_departures : List (Option String) :=
  [none, some "", some "ANY", some "Any", some "ANY LONDON", some "LON"]

/-- Claim C5 counterexample: departure `LON` is a sentinel, yet with
preference airport `Any` the rendered departure stays `LON` — it is not
replaced by the preferred airport, refuting the claimed replacement exactly
on the sentinel set. -/
theorem C5_counterexample :
    ({ AnswerData.empty with departure := some "LON" } : AnswerData).departure ∈
      sentinel_departures ∧
    (send_result_data { AnswerData.empty with departure := some "LON" } { airport := "Any", priority := "Balanced" }).departure = some "LON" ∧
    (send_result_data { AnswerData.empty with departure := some "LON" } { airport := "Any", priority := "Balanced" }).departure ≠ some "Any" := by
  decide

/-- **C5** (amended): the collected departure is replaced by the preferred
airport exactly when it is absent or one of the sentinels `""`, `"ANY"`,
`"Any"`, `"ANY LONDON"`, `"LON"` **and** the preference airport is not
`"Any"`/`"ANY"`; otherwise it is rendered unchanged.  In particular
`"ANY LONDON"` with preference `"LHR"` renders `"LHR"`, and an explicit
`"CDG"` is never overridden. -/
theorem C5_departure_default (d1 d2 d3 : AnswerData) (p1 p2 p3 : Prefs)
    (pr : String) (p4 : Prefs)
    (h1 : d1.departure ∈ sentinel_departures)
    (h1' : p1.airport ∉ (["Any", "ANY"] : List String))
    (h2 : d2.departure ∉ sentinel_departures)
    (h3 : d3.departure ∈ sentinel_departures)
    (h3' : p3.airport ∈ (["Any", "ANY"] : List String)) :
    (send_result_data d1 p1).departure = some p1.airport ∧
    (send_result_data d2 p2).departure = d2.departure ∧
    (send_result_data d3 p3).departure = d3.departure ∧
    (send_result_data { AnswerData.empty with departure := some "ANY LONDON" } { airport := "LHR", priority := pr }).departure = some "LHR" ∧
    (send_result_data { AnswerData.empty with departure := some "CDG" } p4).departure = some "CDG" := by
  refine ⟨?_, ?_, ?_, ?_, ?_⟩
  · have hs : d1.departure = none ∨ d1.departure = some "" ∨ d1.departure = some "ANY" ∨
        d1.departure = some "Any" ∨ d1.departure = some "ANY LONDON" ∨
        d1.departure = some "LON" := by simpa [sentinel_departures] using h1
    have ha : ¬(p1.airport = "Any" ∨ p1.airport = "ANY") := by
      intro hc
      exact h1' (by rcases hc with hc | hc <;> simp [hc])
    simp only [send_result_data]
    rw [if_pos hs, if_pos ha]
  · have hs2 : ¬(d2.departure = none ∨ d2.departure = some "" ∨ d2.departure = some "ANY" ∨
        d2.departure = some "Any" ∨ d2.departure = some "ANY LONDON" ∨
        d2.departure = some "LON") := by
      intro hc
      exact h2 (by simpa [sentinel_departures] using hc)
    simp only [send_result_data]
    rw [if_neg hs2]
  · have hs3 : d3.departure = none ∨ d3.departure = some "" ∨ d3.departure = some "ANY" ∨
        d3.departure = some "Any" ∨ d3.departure = some "ANY LONDON" ∨
        d3.departure = some "LON" := by simpa [sentinel_departures] using h3
    have hor : p3.airport = "Any" ∨ p3.airport = "ANY" := by simpa using h3'
    simp only [send_result_data]
    rw [if_pos hs3, if_neg (not_not_intro hor)]
  · simp only [send_result_data]
    rw [if_pos (by decide), if_pos (by decide)]
  · simp only [send_result_data]
    rw [if_neg (by decide)]

/-- Claim C5 witness: sentinel `"Any"` with preference `"LHR"` is replaced,
explicit `"JFK"` is untouched, absent departure with preference `"ANY"` is
left absent, plus the two concrete scenario instances. -/
theorem C5_departure_default_witness :
    (({ AnswerData.empty with departure := some "Any" } : AnswerData).departure ∈ sentinel_departures) ∧
    (("LHR" : String) ∉ (["Any", "ANY"] : List String)) ∧
    (({ AnswerData.empty with departure := some "JFK" } : AnswerData).departure ∉ sentinel_departures) ∧
    ((AnswerData.empty).departure ∈ sentinel_departures) ∧
    (("ANY" : String) ∈ (["Any", "ANY"] : List String)) ∧
    ((send_result_data { AnswerData.empty with departure := some "Any" } { airport := "LHR", priority := "Balanced" }).departure = some ({ airport := "LHR", priority := "Balanced" } : Prefs).airport ∧
     (send_result_data { AnswerData.empty with departure := some "JFK" } {}).departure = ({ AnswerData.empty with departure := some "JFK" } : AnswerData).departure ∧
     (send_result_data AnswerData.empty { airport := "ANY", priority := "Balanced" }).departure = (AnswerData.empty).departure ∧
     (send_result_data { AnswerData.empty with departure := some "ANY LONDON" } { airport := "LHR", priority := "Balanced" }).departure = some "LHR" ∧
     (send_result_data { AnswerData.empty with departure := some "CDG" } {}).departure = some "CDG") :=
  ⟨by decide, by decide, by decide, by decide, by decide,
   C5_departure_default { AnswerData.empty with departure := some "Any" }
     { AnswerData.empty with departure := some "JFK" } AnswerData.empty
     { airport := "LHR", priority := "Balanced" } {} { airport := "ANY", priority := "Balanced" }
     "Balanced" {} (by decide) (by decide) (by decide) (by decide) (by decide)⟩

/-- **C6**: without access, each of the four flow-entry events — the `/check`
and `/when` commands and the `CHECK_START` and `WHEN_START` tokens — renders
an upgrade prompt and returns the session completely unchanged; the guarded
branches are the only way into either flow. -/
theorem C6_access_gate (now : Nat) (s : Session) (h : has_access now s = false) :
    check_cmd now s = (s, [Render.upgradePrompt]) ∧
    when_cmd now s = (s, [Render.upgradePrompt]) ∧
    on_button now s "CHECK_START" =
      (s, [Render.msg "🔒 Airlo access required.", Render.upgradePrompt]) ∧
    on_button now s "WHEN_START" =
      (s, [Render.msg "🔒 Airlo access required.", Render.upgradePrompt]) := by
  rw [on_button_check_start_eq, on_button_when_start_eq]
  simp [check_cmd, when_cmd, h]

/-- Claim C6 witness: a fresh session has no access and every entry event
leaves it unchanged with an upgrade prompt. -/
theorem C6_access_gate_witness :
    has_access 0 ({} : Session) = false ∧
    (check_cmd 0 {} = ({}, [Render.upgradePrompt]) ∧
     when_cmd 0 {} = ({}, [Render.upgradePrompt]) ∧
     on_button 0 {} "CHECK_START" =
       ({}, [Render.msg "🔒 Airlo access required.", Render.upgradePrompt]) ∧
     on_button 0 {} "WHEN_START" =
       ({}, [Render.msg "🔒 Airlo access required.", Render.upgradePrompt])) :=
  ⟨by decide, C6_access_gate 0 {} (by decide)⟩

/-- **C7**: `grant_access(u, "trial", 7)` sets the expiry to grant time plus
7 days and `has_access` is immediately true; 7 days + 1 second later
`has_access` is false and the status text reports expired; the status text
reports no access when never granted, expired whenever past expiry (floor of
remaining hours ≤ 0), and — the floor-to-zero edge case — reports expired
even while `has_access` is still true, whenever fewer than 3600 seconds
remain. -/
theorem C7_access_lifecycle (t : Nat) (s s0 : Session) (now1 u1 : Nat) (s1 : Session)
    (now2 u2 : Nat) (s2 : Session)
    (h0 : s0.access_until = none)
    (h1 : s1.access_until = some u1) (hle : u1 ≤ now1)
    (h2 : s2.access_until = some u2) (hlt : now2 < u2) (hsm : u2 - now2 < 3600) :
    has_access t (grant_access t s "trial" 7) = true ∧
    (grant_access t s "trial" 7).access_until = some (t + 7 * 86400) ∧
    has_access (t + 7 * 86400 + 1) (grant_access t s "trial" 7) = false ∧
    access_status_text (t + 7 * 86400 + 1) (grant_access t s "trial" 7) =
      "🔒 Access expired.\n\nRestart Airlo Monthly to continue." ∧
    access_status_text t s0 =
      "🔒 No access active.\n\nStart Airlo Monthly to continue using the bot." ∧
    has_access now1 s1 = false ∧
    access_status_text now1 s1 = "🔒 Access expired.\n\nRestart Airlo Monthly to continue." ∧
    has_access now2 s2 = true ∧
    access_status_text now2 s2 = "🔒 Access expired.\n\nRestart Airlo Monthly to continue." := by
  refine ⟨?_, rfl, ?_, ?_, ?_, ?_, ?_, ?_, ?_⟩
  · simp only [has_access, grant_access, decide_eq_true_eq]
    omega
  · simp only [has_access, grant_access]
    rw [decide_eq_false_iff_not]
    omega
  · simp only [access_status_text, grant_access]
    rw [show ((t + 7 * 86400 : Nat) : Int) - ((t + 7 * 86400 + 1 : Nat) : Int) = -1 by
      push_cast; ring]
    rw [if_pos (by decide)]
  · simp [access_status_text, h0]
  · simp only [has_access, h1]
    rw [decide_eq_false_iff_not]
    omega
  · simp only [access_status_text, h1]
    have hdiv : ((u1 : Int) - (now1 : Int)) / 3600 ≤ 0 := by
      have h := Int.ediv_le_ediv (show (0 : Int) < 3600 by norm_num)
        (show ((u1 : Int) - (now1 : Int)) ≤ 0 by omega)
      simpa using h
    rw [Int.fdiv_eq_ediv _ (by norm_num), if_pos hdiv]
  · simp only [has_access, h2, decide_eq_true_eq]
    omega
  · simp only [access_status_text, h2]
    have hz : ((u2 : Int) - (now2 : Int)) / 3600 = 0 :=
      Int.ediv_eq_zero_of_lt (by omega) (by omega)
    rw [Int.fdiv_eq_ediv _ (by norm_num), hz, if_pos (by norm_num)]

/-- Claim C7 witness: grant at time 0; session expired at `u1 = 1 < now1 = 2`;
session with 90 seconds (0 whole hours) left at `now2 = 10, u2 = 100`. -/
theorem C7_access_lifecycle_witness :
    (({ access_until := some 1 } : Session).access_until = some 1 ∧ 1 ≤ 2) ∧
    (({ access_until := some 100 } : Session).access_until = some 100 ∧ 10 < 100 ∧
      100 - 10 < 3600) ∧
    (has_access 0 (grant_access 0 {} "trial" 7) = true ∧
     (grant_access 0 {} "trial" 7).access_until = some (0 + 7 * 86400) ∧
     has_access (0 + 7 * 86400 + 1) (grant_access 0 {} "trial" 7) = false ∧
     access_status_text (0 + 7 * 86400 + 1) (grant_access 0 {} "trial" 7) =
       "🔒 Access expired.\n\nRestart Airlo Monthly to continue." ∧
     access_status_text 0 ({} : Session) =
       "🔒 No access active.\n\nStart Airlo Monthly to continue using the bot." ∧
     has_access 2 ({ access_until := some 1 } : Session) = false ∧
     access_status_text 2 ({ access_until := some 1 } : Session) =
       "🔒 Access expired.\n\nRestart Airlo Monthly to continue." ∧
     has_access 10 ({ access_until := some 100 } : Session) = true ∧
     access_status_text 10 ({ access_until := some 100 } : Session) =
       "🔒 Access expired.\n\nRestart Airlo Monthly to continue.") :=
  ⟨⟨rfl, by decide⟩, ⟨rfl, by decide, by decide⟩,
   C7_access_lifecycle 0 {} {} 2 1 { access_until := some 1 } 10 100
     { access_until := some 100 } rfl rfl (by decide) rfl (by decide) (by decide)⟩

/-- **C8**: with access granted, processing `CHECK_START` resets the answers
to empty and sets the step to the trip-check entry question TRIP_TYPE, from
any prior session state; symmetrically `WHEN_START` resets answers and sets
the step to WHEN_ROUTE_TYPE. -/
theorem C8_start_resets (now : Nat) (s : Session) (h : has_access now s = true) :
    (on_button now s "CHECK_START").1.data = AnswerData.empty ∧
    (on_button now s "CHECK_START").1.step = some "TRIP_TYPE" ∧
    (on_button now s "WHEN_START").1.data = AnswerData.empty ∧
    (on_button now s "WHEN_START").1.step = some "WHEN_ROUTE_TYPE" := by
  rw [on_button_check_start_eq, on_button_when_start_eq]
  simp [h, AnswerData.empty]

/-- A session mid-way through the timing flow with an active grant, used to
show that starting either flow discards earlier partial answers. -/
def c8session : Session :=
  { step := some "WHEN_FLEX", data := { route_type := some "LONG", travel_window := some "PEAK" },
    prefs := {}, access_tier := some "trial", access_until := some 1000 }

/-- Claim C8 witness: a session mid-timing-flow with partial answers is reset
by either start event. -/
theorem C8_start_resets_witness :
    has_access 0 c8session = true ∧
    ((on_button 0 c8session "CHECK_START").1.data = AnswerData.empty ∧
     (on_button 0 c8session "CHECK_START").1.step = some "TRIP_TYPE" ∧
     (on_button 0 c8session "WHEN_START").1.data = AnswerData.empty ∧
     (on_button 0 c8session "WHEN_START").1.step = some "WHEN_ROUTE_TYPE") :=
  ⟨by decide, C8_start_resets 0 c8session (by decide)⟩

/-- A session at the DEP_AREA step of the trip-check flow (reached via
DEP_UK) with an active grant. -/
def c9session : Session :=
  { step := some "DEP_AREA", data := { trip_type := some "Return", dep_region := some "UK" },
    prefs := {}, access_tier := some "trial", access_until := some 1000000 }

/-- **C9**: at the DEP_AREA step the offered selections DEPAREA_TYPE (the
free-text "Other (type it)" button), DEPAREA_MAN and DEPAREA_BHX match no
router branch: the session is left unchanged at DEP_AREA and the generic
start-over fallback is rendered, so these buttons never advance the flow.
Only DEPAREA_LONDON advances (to DEP_LONDON_AIRPORT).  The DEP_TYPED
machinery these buttons should reach does exist and works: a typed message at
DEP_TYPED is stored as the departure and the flow moves to DEST_REGION. -/
theorem C9_deparea_buttons :
    on_button 0 c9session "DEPAREA_TYPE" = (c9session, [Render.msg "Use /start to begin."]) ∧
    on_button 0 c9session "DEPAREA_MAN" = (c9session, [Render.msg "Use /start to begin."]) ∧
    on_button 0 c9session "DEPAREA_BHX" = (c9session, [Render.msg "Use /start to begin."]) ∧
    (on_button 0 c9session "DEPAREA_LONDON").1.step = some "DEP_LONDON_AIRPORT" ∧
    (on_text { c9session with step := some "DEP_TYPED" } "Paris CDG").1.data.departure =
      some "Paris CDG" ∧
    (on_text { c9session with step := some "DEP_TYPED" } "Paris CDG").1.step =
      some "DEST_REGION" := by
  decide

/-- **C10**: each Settings priority button stores the title-cased callback
suffix — `Cheap`, `Fast` or `Comf`, never the full words — and since both
engines lower-case the stored preference and compare against `cheapest`,
`fastest` and `comfort`, a priority stored via Settings never fires an
overlay: the verdict engine output equals the Balanced output on all answers,
and the timing tip equals the Balanced tip. -/
theorem C10_settings_priority_inert (now : Nat) (s : Session) (cd : String) (d : AnswerData)
    (hcd : cd ∈ ["SET_PR_CHEAP", "SET_PR_FAST", "SET_PR_COMF"]) :
    (on_button now s cd).1.prefs.priority ∈ (["Cheap", "Fast", "Comf"] : List String) ∧
    rule_based_verdict { d with pref_priority := some ((on_button now s cd).1.prefs.priority) } =
      rule_based_verdict { d with pref_priority := some "Balanced" } ∧
    (timing_rules { d with pref_priority := some ((on_button now s cd).1.prefs.priority) }).tip =
      (timing_rules { d with pref_priority := some "Balanced" }).tip := by
  fin_cases hcd
  · rw [show (on_button now s "SET_PR_CHEAP").1.prefs.priority = "Cheap" from rfl]
    exact ⟨by decide, verdict_no_overlay d "Cheap" (by decide) (by decide) (by decide),
      timing_no_overlay d "Cheap" (by decide) (by decide) (by decide)⟩
  · rw [show (on_button now s "SET_PR_FAST").1.prefs.priority = "Fast" from rfl]
    exact ⟨by decide, verdict_no_overlay d "Fast" (by decide) (by decide) (by decide),
      timing_no_overlay d "Fast" (by decide) (by decide) (by decide)⟩
  · rw [show (on_button now s "SET_PR_COMF").1.prefs.priority = "Comf" from rfl]
    exact ⟨by decide, verdict_no_overlay d "Comf" (by decide) (by decide) (by decide),
      timing_no_overlay d "Comf" (by decide) (by decide) (by decide)⟩

/-- Claim C10 witness: pressing the Cheapest settings button stores `Cheap`,
which is inert in both engines. -/
theorem C10_settings_priority_inert_witness :
    ("SET_PR_CHEAP" ∈ ["SET_PR_CHEAP", "SET_PR_FAST", "SET_PR_COMF"]) ∧
    ((on_button 0 {} "SET_PR_CHEAP").1.prefs.priority ∈ (["Cheap", "Fast", "Comf"] : List String) ∧
     rule_based_verdict { AnswerData.empty with pref_priority := some ((on_button 0 {} "SET_PR_CHEAP").1.prefs.priority) } =
       rule_based_verdict { AnswerData.empty with pref_priority := some "Balanced" } ∧
     (timing_rules { AnswerData.empty with pref_priority := some ((on_button 0 {} "SET_PR_CHEAP").1.prefs.priority) }).tip =
       (timing_rules { AnswerData.empty with pref_priority := some "Balanced" }).tip) :=
  ⟨by decide, C10_settings_priority_inert 0 {} "SET_PR_CHEAP" AnswerData.empty (by decide)⟩
